import Mathlib

/-!
Shallow embedding of the two scripts of the fintail-financial-dashboard
repository:

  * `src/infrastructure/scripts/update-all-market-caps.py`
    (persistence-enabled variant: fetch → print report → DynamoDB update),
  * `src/infrastructure/scripts/check-pltr-marketcap.py`
    (standalone report for the PLTR ticker, no persistence).

The external yfinance `info` response is modelled by the `Info` structure
(an absent dictionary key is `none`), the external world by two function
parameters: `fetch` (the yfinance call, which may raise) and `store`
(the DynamoDB `update_item` call, which may raise).  Each run is modelled
by the list of observable events it produces: lines printed to stdout and
update requests issued to DynamoDB.
-/

namespace MarketCapSync

/-- Decimal digit as a character. -/
def digitChar : Nat → Char
  | 0 => '0' | 1 => '1' | 2 => '2' | 3 => '3' | 4 => '4'
  | 5 => '5' | 6 => '6' | 7 => '7' | 8 => '8' | _ => '9'

/-- Decimal digits of `n`, most significant first.  The first argument is
fuel (any value `> n` suffices, since `n / 10 < n` for `n ≥ 10`). -/
def natDigitsAux : Nat → Nat → List Char
  | 0, _ => []
  | fuel + 1, n => if n < 10 then [digitChar n] else natDigitsAux fuel (n / 10) ++ [digitChar (n % 10)]

/-- Python `str` of a natural number. -/
def natStr (n : Nat) : String :=
  String.mk (natDigitsAux (n + 1) n)

/-- Python `str` of an integer. -/
def intStr (n : ℤ) : String :=
  if n < 0 then "-" ++ natStr n.natAbs else natStr n.natAbs

/-- Walk a digit list given least-significant-first, inserting a comma
after every third digit. -/
def insertCommasRev : Nat → List Char → List Char
  | _, [] => []
  | 3, c :: cs => ',' :: c :: insertCommasRev 1 cs
  | k, c :: cs => c :: insertCommasRev (k + 1) cs

/-- Python `f"{n:,}"` on a natural number: thousands separators. -/
def natStrComma (n : Nat) : String :=
  String.mk (insertCommasRev 0 (natDigitsAux (n + 1) n).reverse).reverse

/-- Python `f"{n:,}"` on an integer. -/
def intStrComma (n : ℤ) : String :=
  if n < 0 then "-" ++ natStrComma n.natAbs else natStrComma n.natAbs

/-- Floor of a rational, computed directly on numerator and denominator. -/
def rfloor (q : ℚ) : ℤ :=
  Int.fdiv q.num q.den

/-- Round a rational to the nearest integer, ties to even (the rounding
Python's float formatting performs). -/
def roundHalfEven (q : ℚ) : ℤ :=
  let f := rfloor q
  let r := q - (f : ℚ)
  if r < 1 / 2 then f
  else if 1 / 2 < r then f + 1
  else if f % 2 = 0 then f else f + 1

/-- Python `f"{x:.2f}"`: the value rounded to two decimal places, always
showing exactly two digits after the point. -/
def fmt2 (q : ℚ) : String :=
  let n := roundHalfEven (q * 100)
  let w := n.natAbs / 100
  let r := n.natAbs % 100
  (if n < 0 then "-" else "") ++ natStr w ++ "." ++ (if r < 10 then "0" else "") ++ natStr r

/-- Scale a rational by powers of ten until it is an integer, returning
(number of decimal places, scaled integer).  Fuel-bounded; every value the
scripts format has a short finite decimal expansion. -/
def decScale : Nat → ℚ → Nat × ℤ
  | 0, q => (0, q.num)
  | fuel + 1, q =>
    if q.den = 1 then (0, q.num)
    else
      let p := decScale fuel (q * 10)
      (p.1 + 1, p.2)

/-- Python `str` of a float holding the given (finite-decimal) value:
minimal digits, at least one digit after the point. -/
def pyStrPos (q : ℚ) : String :=
  let p := decScale 17 q
  let k := p.1
  let m := p.2.natAbs
  if k = 0 then natStr m ++ ".0"
  else
    let ds := natDigitsAux (m + 1) m
    let padded := if ds.length ≤ k then List.replicate (k + 1 - ds.length) '0' ++ ds else ds
    String.mk (padded.take (padded.length - k)) ++ "." ++ String.mk (padded.drop (padded.length - k))

/-- Python `str` of a float, signed. -/
def pyStr (q : ℚ) : String :=
  if q < 0 then "-" ++ pyStrPos (-q) else pyStrPos q

/-- Message of the `TypeError` Python raises when a format spec such as
`:.2f` or `:,` is applied to `None`. -/
def pyFormatNoneErr : String :=
  "unsupported format string passed to NoneType.__format__"

/-- The yfinance `stock.info` response restricted to the four keys the
scripts read.  An absent dictionary key is `none`. -/
structure Info where
  currentPrice : Option ℚ
  regularMarketPrice : Option ℚ
  marketCap : Option ℤ
  sharesOutstanding : Option ℤ
deriving DecidableEq

/-- One DynamoDB `update_item` request as issued by the script. -/
structure UpdateCall where
  tableName : String
  pk : String
  sk : String
  updateExpression : String
  marketCapValue : String
deriving DecidableEq

/-- Observable events of a run: a line printed to stdout, or an update
request issued to DynamoDB. -/
inductive Event where
  | printed (line : String) : Event
  | dynamoUpdate (call : UpdateCall) : Event
deriving DecidableEq

/-- Table name hardcoded in `update-all-market-caps.py`. -/
def TABLE_NAME : String := "fintail-companies-development"

/-- Line 33 of `update-all-market-caps.py`:
`info.get('currentPrice', info.get('regularMarketPrice'))` — prefer the
`currentPrice` key, fall back to `regularMarketPrice`.  The same fallback
chain appears on line 16 of `check-pltr-marketcap.py` (there ending in the
string `'N/A'`, handled at the use site). -/
def getPrice (info : Info) : Option ℚ :=
  match info.currentPrice with
  | some v => some v
  | none => info.regularMarketPrice

/-- Body of the `try` block of `update_market_cap` after a successful
fetch (lines 32–57 of `update-all-market-caps.py`): extract the fields,
guard on Python falsiness of `market_cap` (`if not market_cap`, true for
both `None` and `0`), print the three report lines (a `None` price or
share count makes the f-string raise `TypeError`, caught by the handler on
line 59), issue the DynamoDB update, and print the outcome line. -/
def processQuote (store : UpdateCall → Except String Unit) (ticker : String) (info : Info) : List Event :=
  match info.marketCap with
  | none => [Event.printed ("❌ No market cap data available for " ++ ticker)]
  | some market_cap =>
    if market_cap = 0 then
      [Event.printed ("❌ No market cap data available for " ++ ticker)]
    else
      match getPrice info with
      | none => [Event.printed ("❌ Error updating " ++ ticker ++ ": " ++ pyFormatNoneErr)]
      | some current_price =>
        let l1 := Event.printed ("   Stock Price: $" ++ fmt2 current_price)
        let l2 := Event.printed ("   Market Cap: $" ++ fmt2 ((market_cap : ℚ) / 1000000000) ++ "B")
        match info.sharesOutstanding with
        | none => [l1, l2, Event.printed ("❌ Error updating " ++ ticker ++ ": " ++ pyFormatNoneErr)]
        | some shares_outstanding =>
          let l3 := Event.printed ("   Shares Outstanding: " ++ intStrComma shares_outstanding)
          let call : UpdateCall :=
            ⟨TABLE_NAME, "COMPANY#" ++ ticker, "METADATA", "SET marketCap = :mc", intStr market_cap⟩
          match store call with
          | Except.ok _ =>
            [l1, l2, l3, Event.dynamoUpdate call,
             Event.printed ("✅ Updated " ++ ticker ++ " market cap in DynamoDB")]
          | Except.error e =>
            [l1, l2, l3, Event.dynamoUpdate call,
             Event.printed ("❌ Error updating " ++ ticker ++ ": " ++ e)]

/-- The function `update_market_cap` of `update-all-market-caps.py`: print
the fetching line, then run the `try` block; a raising fetch is caught by
the `except` handler on line 59, which prints the per-ticker error line. -/
def update_market_cap (fetch : String → Except String Info)
    (store : UpdateCall → Except String Unit) (ticker : String) : List Event :=
  Event.printed ("\nFetching data for " ++ ticker ++ "...") ::
    match fetch ticker with
    | Except.error e => [Event.printed ("❌ Error updating " ++ ticker ++ ": " ++ e)]
    | Except.ok info => processQuote store ticker info

/-- Hardcoded ticker list of `main` (line 65 of
`update-all-market-caps.py`). -/
def tickers : List String := ["PLTR", "AMZN", "META"]

/-- The function `main` of `update-all-market-caps.py`: banner, then the
`for` loop over the hardcoded tickers, then the completion line. -/
def main (fetch : String → Except String Info)
    (store : UpdateCall → Except String Unit) : List Event :=
  Event.printed "🚀 Updating market caps from Yahoo Finance...\n" ::
    (tickers.foldl (fun acc t => acc ++ update_market_cap fetch store t) [] ++
      [Event.printed "\n🎉 Market cap updates completed!"])

/-- Module body of `check-pltr-marketcap.py` (lines 15–19), given the
fetched `info`: the five printed lines.  Note the `.get` defaults: the
price falls back to the string `'N/A'`, while `marketCap` and
`sharesOutstanding` default to the integer `0`. -/
def checkPltrReport (info : Info) : List String :=
  [ "\n✅ PLTR Market Data:",
    "   Stock Price: $" ++ (match getPrice info with | some v => pyStr v | none => "N/A"),
    "   Market Cap: $" ++ fmt2 (((info.marketCap.getD 0 : ℤ) : ℚ) / 1000000000) ++ "B",
    "   Market Cap (raw): " ++ intStr (info.marketCap.getD 0),
    "   Shares Outstanding: " ++ intStrComma (info.sharesOutstanding.getD 0) ]

/-- The DynamoDB update requests among a run's events. -/
def updatesOf (evs : List Event) : List UpdateCall :=
  evs.filterMap fun e =>
    match e with
    | Event.dynamoUpdate c => some c
    | _ => none

/-- The stdout lines among a run's events. -/
def printedLines (evs : List Event) : List String :=
  evs.filterMap fun e =>
    match e with
    | Event.printed l => some l
    | _ => none

/-- A store (DynamoDB client) whose writes always succeed. -/
def okStore : UpdateCall → Except String Unit := fun _ => Except.ok ()

/-- The PLTR scenario record of the spec: `currentPrice 25.50`,
`marketCap 54000000000`, `sharesOutstanding 2116000000`. -/
def pltrInfo : Info :=
  Info.mk (some (51 / 2)) none (some 54000000000) (some 2116000000)

attribute [local semireducible] Rat.mul Rat.add Rat.sub Rat.inv

/-- C1: if the fetched record has an absent `marketCap`, the DynamoDB
`update_item` is never invoked for that ticker and the "no data" condition
is reported instead. -/
theorem c1_absent_marketCap_never_writes
    (fetch : String → Except String Info) (store : UpdateCall → Except String Unit)
    (t : String) (info : Info)
    (hf : fetch t = Except.ok info) (hmc : info.marketCap = none) :
    updatesOf (update_market_cap fetch store t) = [] ∧
      Event.printed ("❌ No market cap data available for " ++ t) ∈
        update_market_cap fetch store t := by
  obtain ⟨cp, rmp, mc, so⟩ := info
  simp only [Info.marketCap] at hmc
  subst hmc
  simp [update_market_cap, hf, processQuote, updatesOf]

/-- Witness for C1 at a concrete fetch returning a record with every
field absent. -/
theorem c1_witness :
    updatesOf (update_market_cap (fun _ => Except.ok (Info.mk none none none none)) okStore "PLTR") = [] ∧
      Event.printed ("❌ No market cap data available for " ++ "PLTR") ∈
        update_market_cap (fun _ => Except.ok (Info.mk none none none none)) okStore "PLTR" :=
  c1_absent_marketCap_never_writes (fun _ => Except.ok (Info.mk none none none none)) okStore
    "PLTR" (Info.mk none none none none) rfl rfl

/-- C2 counterexample: in `check-pltr-marketcap.py`, a response with every
field absent is rendered with the defaults `0` / `'N/A'`: the division by
1e9 is performed on the default `0` and the market-cap lines read
`$0.00B` / `0` — no "no data" indicator is rendered for them, refuting the
claim that absent fields never map to a default of zero. -/
theorem c2_counterexample :
    checkPltrReport (Info.mk none none none none) =
      ["\n✅ PLTR Market Data:", "   Stock Price: $N/A", "   Market Cap: $0.00B",
       "   Market Cap (raw): 0", "   Shares Outstanding: 0"] ∧
      (checkPltrReport (Info.mk none none none none)).get? 2 =
        some ("   Market Cap: $" ++ fmt2 (((0 : ℤ) : ℚ) / 1000000000) ++ "B") := by
  constructor
  · decide
  · decide

/-- C2 (amended): in the persistence script an absent `marketCap` yields
only the "no data" message and no write (no division is attempted); in the
standalone check script absent `marketCap`/`sharesOutstanding` default to
the integer 0 — the division `0 / 1e9` is performed and rendered — and
only the price falls back to the sentinel string `'N/A'`. -/
theorem c2_amended_missing_fields
    (store : UpdateCall → Except String Unit) (t : String) (info : Info)
    (hmc : info.marketCap = none) :
    (processQuote store t info = [Event.printed ("❌ No market cap data available for " ++ t)] ∧
      updatesOf (processQuote store t info) = []) ∧
    (checkPltrReport info).get? 2 = some ("   Market Cap: $" ++ fmt2 (((0 : ℤ) : ℚ) / 1000000000) ++ "B") ∧
    (checkPltrReport info).get? 3 = some "   Market Cap (raw): 0" ∧
    (info.currentPrice = none → info.regularMarketPrice = none →
      (checkPltrReport info).get? 1 = some "   Stock Price: $N/A") := by
  obtain ⟨cp, rmp, mc, so⟩ := info
  simp only [Info.marketCap] at hmc
  subst hmc
  refine ⟨⟨?_, ?_⟩, ?_, ?_, ?_⟩
  · simp [processQuote]
  · simp [processQuote, updatesOf]
  · simp [checkPltrReport]
  · simp [checkPltrReport]
    decide
  · intro h1 h2
    simp only [Info.currentPrice] at h1
    simp only [Info.regularMarketPrice] at h2
    subst h1
    subst h2
    simp only [checkPltrReport, getPrice]
    rfl

/-- Witness for C2's amended statement at the all-absent record. -/
theorem c2_witness :
    (processQuote okStore "XYZ" (Info.mk none none none none) =
        [Event.printed ("❌ No market cap data available for " ++ "XYZ")] ∧
      updatesOf (processQuote okStore "XYZ" (Info.mk none none none none)) = []) ∧
    (checkPltrReport (Info.mk none none none none)).get? 2 =
      some ("   Market Cap: $" ++ fmt2 (((0 : ℤ) : ℚ) / 1000000000) ++ "B") ∧
    (checkPltrReport (Info.mk none none none none)).get? 3 = some "   Market Cap (raw): 0" ∧
    ((Info.mk none none none none : Info).currentPrice = none →
      (Info.mk none none none none : Info).regularMarketPrice = none →
      (checkPltrReport (Info.mk none none none none)).get? 1 = some "   Stock Price: $N/A") :=
  c2_amended_missing_fields okStore "XYZ" (Info.mk none none none none) rfl

/-- C8: `main` processes exactly the hardcoded sequence PLTR, AMZN, META,
in that order, running each ticker's pipeline and terminating when the
sequence is exhausted. -/
theorem c8_batch_sequence
    (fetch : String → Except String Info) (store : UpdateCall → Except String Unit) :
    main fetch store =
      Event.printed "🚀 Updating market caps from Yahoo Finance...\n" ::
        (update_market_cap fetch store "PLTR" ++ update_market_cap fetch store "AMZN" ++
          update_market_cap fetch store "META" ++
          [Event.printed "\n🎉 Market cap updates completed!"]) := by
  simp [main, tickers, List.append_assoc]

/-- C10: a fetched `marketCap` equal to 0 is treated exactly like an
absent one (the guard tests Python falsiness): the warning is printed, no
report lines are printed, and no DynamoDB write is issued. -/
theorem c10_zero_marketCap_as_absent
    (store : UpdateCall → Except String Unit) (t : String) (info : Info)
    (hmc : info.marketCap = some 0) :
    processQuote store t info =
        processQuote store t
          (Info.mk info.currentPrice info.regularMarketPrice none info.sharesOutstanding) ∧
      processQuote store t info = [Event.printed ("❌ No market cap data available for " ++ t)] ∧
      updatesOf (processQuote store t info) = [] := by
  obtain ⟨cp, rmp, mc, so⟩ := info
  simp only [Info.marketCap] at hmc
  subst hmc
  refine ⟨?_, ?_, ?_⟩
  · simp [processQuote]
  · simp [processQuote]
  · simp [processQuote, updatesOf]

/-- Witness for C10 at a record that is complete except that its
`marketCap` is the integer 0. -/
theorem c10_witness :
    processQuote okStore "PLTR" (Info.mk (some 25) none (some 0) (some 2116)) =
        processQuote okStore "PLTR" (Info.mk (some 25) none none (some 2116)) ∧
      processQuote okStore "PLTR" (Info.mk (some 25) none (some 0) (some 2116)) =
        [Event.printed ("❌ No market cap data available for " ++ "PLTR")] ∧
      updatesOf (processQuote okStore "PLTR" (Info.mk (some 25) none (some 0) (some 2116))) = [] :=
  c10_zero_marketCap_as_absent okStore "PLTR" (Info.mk (some 25) none (some 0) (some 2116)) rfl

/-- C4 counterexample: a fetched `marketCap` that is present but equal to
0 issues no update request at all (the guard tests falsiness, not
presence), refuting "for every ticker whose marketCap is present, the
persistence step issues exactly one update request". -/
theorem c4_counterexample :
    updatesOf (update_market_cap
        (fun _ => Except.ok (Info.mk (some 25) none (some 0) (some 2116))) okStore "AMZN") = [] ∧
      ¬ (updatesOf (update_market_cap
        (fun _ => Except.ok (Info.mk (some 25) none (some 0) (some 2116))) okStore "AMZN")).length = 1 := by
  constructor
  · decide
  · decide

/-- C4 (amended): for every ticker whose `marketCap` is present and
nonzero and whose price (after the `regularMarketPrice` fallback) and
`sharesOutstanding` are present, exactly one update request is issued,
keyed by partition key `COMPANY#<ticker>` and fixed sort key `METADATA`,
and its update expression sets only the `marketCap` attribute. -/
theorem c4_amended_single_update
    (fetch : String → Except String Info) (store : UpdateCall → Except String Unit)
    (t : String) (info : Info) (m : ℤ) (p : ℚ) (s : ℤ)
    (hf : fetch t = Except.ok info) (hmc : info.marketCap = some m) (hm : m ≠ 0)
    (hp : getPrice info = some p) (hs : info.sharesOutstanding = some s) :
    updatesOf (update_market_cap fetch store t) =
      [UpdateCall.mk TABLE_NAME ("COMPANY#" ++ t) "METADATA" "SET marketCap = :mc" (intStr m)] := by
  obtain ⟨cp, rmp, mc, so⟩ := info
  simp only [Info.marketCap] at hmc
  simp only [Info.sharesOutstanding] at hs
  subst hmc
  subst hs
  simp only [update_market_cap, hf, processQuote, hp, hm, if_false, updatesOf]
  split <;> simp [updatesOf]

/-- Witness for C4's amended statement: the spec's AMZN scenario with
`marketCap = 1900000000000`. -/
theorem c4_witness :
    updatesOf (update_market_cap
        (fun _ => Except.ok (Info.mk (some 200) none (some 1900000000000) (some 10)))
        okStore "AMZN") =
      [UpdateCall.mk "fintail-companies-development" "COMPANY#AMZN" "METADATA"
        "SET marketCap = :mc" "1900000000000"] :=
  (c4_amended_single_update
      (fun _ => Except.ok (Info.mk (some 200) none (some 1900000000000) (some 10)))
      okStore "AMZN" (Info.mk (some 200) none (some 1900000000000) (some 10))
      1900000000000 200 10 rfl rfl (by decide) rfl rfl).trans (by decide)

/-- C5 counterexample: on the spec's PLTR record the persistence script's
report contains no `Market Cap (raw)` line, and the check script's price
line is `$25.5` (plain `str`, not 2-decimal formatting) — so no single
printed report shows all four claimed lines. -/
theorem c5_counterexample :
    Event.printed "   Market Cap (raw): 54000000000" ∉
        processQuote okStore "PLTR" pltrInfo ∧
      (checkPltrReport pltrInfo).get? 1 = some "   Stock Price: $25.5" := by
  constructor
  · decide
  · decide

/-- C5 (amended): for the record with `currentPrice 25.50`,
`marketCap 54000000000`, `sharesOutstanding 2116000000`, the persistence
script prints `Stock Price: $25.50`, `Market Cap: $54.00B` and
`Shares Outstanding: 2,116,000,000` (no raw line), while the check script
prints `Stock Price: $25.5`, `Market Cap: $54.00B`,
`Market Cap (raw): 54000000000` and `Shares Outstanding: 2,116,000,000`. -/
theorem c5_amended_report_rendering :
    processQuote okStore "PLTR" pltrInfo =
      [Event.printed "   Stock Price: $25.50",
       Event.printed "   Market Cap: $54.00B",
       Event.printed "   Shares Outstanding: 2,116,000,000",
       Event.dynamoUpdate (UpdateCall.mk "fintail-companies-development" "COMPANY#PLTR"
         "METADATA" "SET marketCap = :mc" "54000000000"),
       Event.printed "✅ Updated PLTR market cap in DynamoDB"] ∧
    checkPltrReport pltrInfo =
      ["\n✅ PLTR Market Data:", "   Stock Price: $25.5", "   Market Cap: $54.00B",
       "   Market Cap (raw): 54000000000", "   Shares Outstanding: 2,116,000,000"] := by
  constructor
  · decide
  · decide

/-- C6: whenever `marketCap` is present, the billions-formatted line of
either script's report equals `marketCap / 1e9` rounded to two decimal
places (for the persistence script, whenever its report is rendered at
all, i.e. `marketCap` nonzero and a price available). -/
theorem c6_billions_line
    (store : UpdateCall → Except String Unit) (t : String) (info : Info) (m : ℤ) (p : ℚ)
    (hmc : info.marketCap = some m) :
    (checkPltrReport info).get? 2 =
        some ("   Market Cap: $" ++ fmt2 ((m : ℚ) / 1000000000) ++ "B") ∧
      (m ≠ 0 → getPrice info = some p →
        (printedLines (processQuote store t info)).get? 1 =
          some ("   Market Cap: $" ++ fmt2 ((m : ℚ) / 1000000000) ++ "B")) := by
  obtain ⟨cp, rmp, mc, so⟩ := info
  simp only [Info.marketCap] at hmc
  subst hmc
  constructor
  · simp [checkPltrReport]
  · intro hm hp
    simp only [processQuote, hp, hm, if_false]
    cases so with
    | none => simp [printedLines]
    | some s =>
      simp only []
      split <;> simp [printedLines]

/-- Witness for C6 at the PLTR record. -/
theorem c6_witness :
    (checkPltrReport pltrInfo).get? 2 = some "   Market Cap: $54.00B" ∧
      (printedLines (processQuote okStore "PLTR" pltrInfo)).get? 1 =
        some "   Market Cap: $54.00B" := by
  have h := c6_billions_line okStore "PLTR" pltrInfo 54000000000 (51 / 2) rfl
  exact ⟨h.1.trans (by decide), (h.2 (by decide) rfl).trans (by decide)⟩

/-- C7: the reported current price is taken from the `currentPrice` field
when present, and otherwise falls back to the `regularMarketPrice`
field. -/
theorem c7_price_fallback (info : Info) :
    (∀ v, info.currentPrice = some v →
        getPrice info = some v ∧
          (checkPltrReport info).get? 1 = some ("   Stock Price: $" ++ pyStr v)) ∧
      (info.currentPrice = none →
        getPrice info = info.regularMarketPrice ∧
          ∀ w, info.regularMarketPrice = some w →
            (checkPltrReport info).get? 1 = some ("   Stock Price: $" ++ pyStr w)) := by
  obtain ⟨cp, rmp, mc, so⟩ := info
  constructor
  · intro v hv
    simp only [Info.currentPrice] at hv
    subst hv
    exact ⟨rfl, rfl⟩
  · intro hv
    simp only [Info.currentPrice] at hv
    subst hv
    refine ⟨rfl, ?_⟩
    intro w hw
    simp only [Info.regularMarketPrice] at hw
    subst hw
    rfl

/-- Witness for C7: a record carrying both price fields reports the
`currentPrice` one. -/
theorem c7_witness :
    getPrice (Info.mk (some (51 / 2)) (some 7) (some 54000000000) (some 2116000000)) =
        some (51 / 2) ∧
      (checkPltrReport (Info.mk (some (51 / 2)) (some 7) (some 54000000000) (some 2116000000))).get? 1 =
        some "   Stock Price: $25.5" := by
  have h := (c7_price_fallback
      (Info.mk (some (51 / 2)) (some 7) (some 54000000000) (some 2116000000))).1 (51 / 2) rfl
  exact ⟨h.1, h.2.trans (by decide)⟩

/-- C9 counterexample: with `marketCap` present but equal to 0 and both
price fields and `sharesOutstanding` absent, the report formatting is
never reached and nothing raises — the falsiness guard prints the
"no data" warning instead — refuting the claim for that input (the claim
asserts the formatting raises whenever `marketCap` is present and a
price/shares field is absent). -/
theorem c9_counterexample :
    processQuote okStore "PLTR" (Info.mk none none (some 0) none) =
        [Event.printed "❌ No market cap data available for PLTR"] ∧
      Event.printed ("❌ Error updating PLTR: " ++ pyFormatNoneErr) ∉
        processQuote okStore "PLTR" (Info.mk none none (some 0) none) := by
  constructor
  · decide
  · decide

/-- C9 (amended): for every ticker whose `marketCap` is present and
nonzero but whose price (after fallback) or `sharesOutstanding` is
absent, the f-string formatting raises, the per-ticker handler reports
the error, and no DynamoDB update is issued — and in general a write
occurs only when the price, a nonzero `marketCap`, and
`sharesOutstanding` are all present. -/
theorem c9_amended_format_error_blocks_write
    (store : UpdateCall → Except String Unit) (t : String) (info : Info) (m : ℤ)
    (hmc : info.marketCap = some m) (hm : m ≠ 0)
    (habs : getPrice info = none ∨ info.sharesOutstanding = none) :
    Event.printed ("❌ Error updating " ++ t ++ ": " ++ pyFormatNoneErr) ∈
        processQuote store t info ∧
      updatesOf (processQuote store t info) = [] ∧
      ∀ info2 : Info, updatesOf (processQuote store t info2) ≠ [] →
        info2.marketCap ≠ none ∧ info2.marketCap ≠ some 0 ∧
          getPrice info2 ≠ none ∧ info2.sharesOutstanding ≠ none := by
  obtain ⟨cp, rmp, mc, so⟩ := info
  simp only [Info.marketCap] at hmc
  subst hmc
  have key : Event.printed ("❌ Error updating " ++ t ++ ": " ++ pyFormatNoneErr) ∈
      processQuote store t (Info.mk cp rmp (some m) so) ∧
      updatesOf (processQuote store t (Info.mk cp rmp (some m) so)) = [] := by
    rcases habs with hp | hs
    · simp [processQuote, hm, hp, updatesOf]
    · simp only [Info.sharesOutstanding] at hs
      subst hs
      cases hgp : getPrice (Info.mk cp rmp (some m) none) with
      | none => simp [processQuote, hm, hgp, updatesOf]
      | some p => simp [processQuote, hm, hgp, updatesOf]
  refine ⟨key.1, key.2, ?_⟩
  intro info2 hne
  obtain ⟨cp2, rmp2, mc2, so2⟩ := info2
  cases mc2 with
  | none => simp [processQuote, updatesOf] at hne
  | some m2 =>
    by_cases hm2 : m2 = 0
    · subst hm2
      simp [processQuote, updatesOf] at hne
    · cases hgp2 : getPrice (Info.mk cp2 rmp2 (some m2) so2) with
      | none => simp [processQuote, hm2, hgp2, updatesOf] at hne
      | some p2 =>
        cases so2 with
        | none => simp [processQuote, hm2, hgp2, updatesOf] at hne
        | some s2 =>
          refine ⟨by simp, by simp [hm2], by simp [hgp2], by simp⟩

/-- Witness for C9's amended statement: `marketCap` present and nonzero,
price present, `sharesOutstanding` absent. -/
theorem c9_witness :
    Event.printed ("❌ Error updating " ++ "PLTR" ++ ": " ++ pyFormatNoneErr) ∈
        processQuote okStore "PLTR" (Info.mk (some 25) none (some 54000000000) none) ∧
      updatesOf (processQuote okStore "PLTR" (Info.mk (some 25) none (some 54000000000) none)) = [] := by
  have h := c9_amended_format_error_blocks_write okStore "PLTR"
      (Info.mk (some 25) none (some 54000000000) none) 54000000000 rfl (by decide) (Or.inr rfl)
  exact ⟨h.1, h.2.1⟩

/-- C3: a retrieval failure for one ticker is caught and reported at the
per-ticker boundary and does not prevent processing of any later ticker:
with a provider failing only for META and complete data for PLTR and
AMZN, the run still renders full reports (and writes) for PLTR and AMZN,
reports the META error, and completes the full ticker list. -/
theorem c3_per_ticker_isolation
    (fetch : String → Except String Info) (store : UpdateCall → Except String Unit)
    (infoP infoA : Info) (e : String) (pP pA : ℚ) (mP mA sP sA : ℤ)
    (hfP : fetch "PLTR" = Except.ok infoP) (hfA : fetch "AMZN" = Except.ok infoA)
    (hfM : fetch "META" = Except.error e)
    (hmcP : infoP.marketCap = some mP) (hmP : mP ≠ 0)
    (hpP : getPrice infoP = some pP) (hsP : infoP.sharesOutstanding = some sP)
    (hmcA : infoA.marketCap = some mA) (hmA : mA ≠ 0)
    (hpA : getPrice infoA = some pA) (hsA : infoA.sharesOutstanding = some sA)
    (hst : ∀ c, store c = Except.ok ()) :
    main fetch store =
      [Event.printed "🚀 Updating market caps from Yahoo Finance...\n",
       Event.printed "\nFetching data for PLTR...",
       Event.printed ("   Stock Price: $" ++ fmt2 pP),
       Event.printed ("   Market Cap: $" ++ fmt2 ((mP : ℚ) / 1000000000) ++ "B"),
       Event.printed ("   Shares Outstanding: " ++ intStrComma sP),
       Event.dynamoUpdate (UpdateCall.mk TABLE_NAME "COMPANY#PLTR" "METADATA"
         "SET marketCap = :mc" (intStr mP)),
       Event.printed "✅ Updated PLTR market cap in DynamoDB",
       Event.printed "\nFetching data for AMZN...",
       Event.printed ("   Stock Price: $" ++ fmt2 pA),
       Event.printed ("   Market Cap: $" ++ fmt2 ((mA : ℚ) / 1000000000) ++ "B"),
       Event.printed ("   Shares Outstanding: " ++ intStrComma sA),
       Event.dynamoUpdate (UpdateCall.mk TABLE_NAME "COMPANY#AMZN" "METADATA"
         "SET marketCap = :mc" (intStr mA)),
       Event.printed "✅ Updated AMZN market cap in DynamoDB",
       Event.printed "\nFetching data for META...",
       Event.printed ("❌ Error updating META: " ++ e),
       Event.printed "\n🎉 Market cap updates completed!"] ∧
    ∀ (store2 : UpdateCall → Except String Unit) (e2 : String),
      (∀ c, store2 c = Except.error e2) →
      main fetch store2 =
        [Event.printed "🚀 Updating market caps from Yahoo Finance...\n",
         Event.printed "\nFetching data for PLTR...",
         Event.printed ("   Stock Price: $" ++ fmt2 pP),
         Event.printed ("   Market Cap: $" ++ fmt2 ((mP : ℚ) / 1000000000) ++ "B"),
         Event.printed ("   Shares Outstanding: " ++ intStrComma sP),
         Event.dynamoUpdate (UpdateCall.mk TABLE_NAME "COMPANY#PLTR" "METADATA"
           "SET marketCap = :mc" (intStr mP)),
         Event.printed ("❌ Error updating PLTR: " ++ e2),
         Event.printed "\nFetching data for AMZN...",
         Event.printed ("   Stock Price: $" ++ fmt2 pA),
         Event.printed ("   Market Cap: $" ++ fmt2 ((mA : ℚ) / 1000000000) ++ "B"),
         Event.printed ("   Shares Outstanding: " ++ intStrComma sA),
         Event.dynamoUpdate (UpdateCall.mk TABLE_NAME "COMPANY#AMZN" "METADATA"
           "SET marketCap = :mc" (intStr mA)),
         Event.printed ("❌ Error updating AMZN: " ++ e2),
         Event.printed "\nFetching data for META...",
         Event.printed ("❌ Error updating META: " ++ e),
         Event.printed "\n🎉 Market cap updates completed!"] := by
  obtain ⟨cpP, rmpP, mcP, soP⟩ := infoP
  obtain ⟨cpA, rmpA, mcA, soA⟩ := infoA
  simp only [Info.marketCap] at hmcP hmcA
  simp only [Info.sharesOutstanding] at hsP hsA
  subst hmcP
  subst hmcA
  subst hsP
  subst hsA
  constructor
  · simp only [main, tickers, List.foldl, update_market_cap, hfP, hfA, hfM,
      processQuote, hpP, hpA, hmP, hmA, if_neg, hst, List.nil_append, List.cons_append,
      List.append_assoc, List.append_nil]
    rfl
  · intro store2 e2 hst2
    simp only [main, tickers, List.foldl, update_market_cap, hfP, hfA, hfM,
      processQuote, hpP, hpA, hmP, hmA, if_neg, hst2, List.nil_append, List.cons_append,
      List.append_assoc, List.append_nil]
    rfl

/-- Witness for C3: a concrete provider failing only for META, run once
against an always-succeeding store and once against an always-failing
one. -/
theorem c3_witness :
    main (fun t => if t = "META" then Except.error "HTTPError 429" else Except.ok pltrInfo)
        okStore =
      [Event.printed "🚀 Updating market caps from Yahoo Finance...\n",
       Event.printed "\nFetching data for PLTR...",
       Event.printed "   Stock Price: $25.50",
       Event.printed "   Market Cap: $54.00B",
       Event.printed "   Shares Outstanding: 2,116,000,000",
       Event.dynamoUpdate (UpdateCall.mk "fintail-companies-development" "COMPANY#PLTR"
         "METADATA" "SET marketCap = :mc" "54000000000"),
       Event.printed "✅ Updated PLTR market cap in DynamoDB",
       Event.printed "\nFetching data for AMZN...",
       Event.printed "   Stock Price: $25.50",
       Event.printed "   Market Cap: $54.00B",
       Event.printed "   Shares Outstanding: 2,116,000,000",
       Event.dynamoUpdate (UpdateCall.mk "fintail-companies-development" "COMPANY#AMZN"
         "METADATA" "SET marketCap = :mc" "54000000000"),
       Event.printed "✅ Updated AMZN market cap in DynamoDB",
       Event.printed "\nFetching data for META...",
       Event.printed ("❌ Error updating META: " ++ "HTTPError 429"),
       Event.printed "\n🎉 Market cap updates completed!"] ∧
    main (fun t => if t = "META" then Except.error "HTTPError 429" else Except.ok pltrInfo)
        (fun _ => Except.error "AccessDenied") =
      [Event.printed "🚀 Updating market caps from Yahoo Finance...\n",
       Event.printed "\nFetching data for PLTR...",
       Event.printed "   Stock Price: $25.50",
       Event.printed "   Market Cap: $54.00B",
       Event.printed "   Shares Outstanding: 2,116,000,000",
       Event.dynamoUpdate (UpdateCall.mk "fintail-companies-development" "COMPANY#PLTR"
         "METADATA" "SET marketCap = :mc" "54000000000"),
       Event.printed ("❌ Error updating PLTR: " ++ "AccessDenied"),
       Event.printed "\nFetching data for AMZN...",
       Event.printed "   Stock Price: $25.50",
       Event.printed "   Market Cap: $54.00B",
       Event.printed "   Shares Outstanding: 2,116,000,000",
       Event.dynamoUpdate (UpdateCall.mk "fintail-companies-development" "COMPANY#AMZN"
         "METADATA" "SET marketCap = :mc" "54000000000"),
       Event.printed ("❌ Error updating AMZN: " ++ "AccessDenied"),
       Event.printed "\nFetching data for META...",
       Event.printed ("❌ Error updating META: " ++ "HTTPError 429"),
       Event.printed "\n🎉 Market cap updates completed!"] := by
  have h := c3_per_ticker_isolation
    (fun t => if t = "META" then Except.error "HTTPError 429" else Except.ok pltrInfo)
    okStore pltrInfo pltrInfo "HTTPError 429" (51 / 2) (51 / 2)
    54000000000 54000000000 2116000000 2116000000
    rfl rfl rfl rfl (by decide) rfl rfl rfl (by decide) rfl rfl
    (fun _ => rfl)
  refine ⟨h.1.trans (by decide), ?_⟩
  exact (h.2 (fun _ => Except.error "AccessDenied") "AccessDenied" (fun _ => rfl)).trans (by decide)

end MarketCapSync
